import Mathlib

/-
Verification development for the ride-watch service.

The repository contains two deployment variants of the same polling and
notification core:
 - `src/index.js`: in-memory status cache, change-gated Firestore writes,
   bedtime (quiet hours) scheduling, push-only notification channel;
 - `src/unnamed/part_000`: no status cache (reads/writes Firestore on every
   observation), alert-mode interval selection, SMS and push channels.

The definitions below are a shallow embedding of that code.  Firestore
collections are modelled as association lists keyed by document id, the
module-level caches as explicit state records, wall-clock times as
hour/minute/second numbers already resolved in the configured timezone, and
each external send as a per-target outcome supplied as a function argument.
Definitions suffixed `_v0` embed the `src/unnamed/part_000` variant.
-/

namespace RideWatch

/-! ## JavaScript-style string helpers -/

/-- Membership of one character list as a contiguous segment prefix. -/
def listPre : List Char → List Char → Bool
  | [], _ => true
  | _ :: _, [] => false
  | a :: as, b :: bs => a == b && listPre as bs

/-- `listSub needle hay`: does `needle` occur contiguously inside `hay`?
Embeds JavaScript `String.prototype.includes`. -/
def listSub (needle : List Char) : List Char → Bool
  | [] => listPre needle []
  | l@(_ :: rest) => listPre needle l || listSub needle rest

/-- JavaScript `toLowerCase` (ASCII model). -/
def strLower (s : String) : String := String.mk (s.toList.map Char.toLower)

/-- `shouldMonitorRide` from both variants: empty allow-list monitors
everything, otherwise a case-insensitive substring match. -/
def shouldMonitorRide (watchedRides : List String) (rideName : String) : Bool :=
  watchedRides.isEmpty ||
    watchedRides.any (fun watched =>
      listSub ((strLower watched).trim.toList) (strLower rideName).toList)

/-- `DOWN_STATUSES` from both variants. -/
def DOWN_STATUSES : List String := ["DOWN", "REFURBISHMENT", "CLOSED"]

/-- `isDownStatus` from both variants. -/
def isDownStatus (status : String) : Bool := DOWN_STATUSES.contains status

/-- JavaScript `attraction.status || 'UNKNOWN'`: an absent or empty (falsy)
status string defaults to `"UNKNOWN"`. -/
def jsStatus : Option String → String
  | none => "UNKNOWN"
  | some s => if s = "" then "UNKNOWN" else s

/-- JavaScript `previousStatus && previousStatus !== currentStatus`: the
previous status must be truthy (a non-empty string) and differ. -/
def jsTruthyNe (previous : Option String) (current : String) : Bool :=
  match previous with
  | none => false
  | some p => p != "" && p != current

/-! ## Association-list documents (Firestore collections) -/

/-- Create-or-replace a document under key `k` (Firestore `set`). Only
`List.lookup` observations of the result are used by the statements. -/
def setDoc (m : List (String × α)) (k : String) (v : α) : List (String × α) :=
  (k, v) :: m.filter (fun p => p.1 != k)

/-! ## Status cache and `saveStatus` -/

/-- A `ride-status` document / status-cache entry. -/
structure StatusData where
  status : String
  rideName : String
  updatedAt : Nat
deriving DecidableEq

/-- The in-memory status cache together with the durable status collection. -/
structure StatusState where
  cache : List (String × StatusData)
  store : List (String × StatusData)
deriving DecidableEq

/-- `saveStatus` from `src/index.js`: always update the cache, write to
Firestore only when no prior entry exists or the stored status differs;
the returned flag reports whether a durable write occurred. -/
def saveStatus (st : StatusState) (rideId status rideName : String) (now : Nat) :
    StatusState × Bool :=
  let previous := st.cache.lookup rideId
  let hasChanged : Bool := match previous with
    | none => true
    | some p => p.status != status
  let data : StatusData := ⟨status, rideName, now⟩
  if hasChanged then
    (⟨setDoc st.cache rideId data, setDoc st.store rideId data⟩, true)
  else
    (⟨setDoc st.cache rideId data, st.store⟩, false)

/-! ## Diff engine (`checkStatusChanges` per-observation step) -/

/-- One raw entity observation from the live feed. -/
structure Attraction where
  id : String
  name : String
  entityType : String
  status : Option String
deriving DecidableEq

/-- A detected status transition. -/
structure ChangeEvent where
  rideId : String
  rideName : String
  oldStatus : String
  newStatus : String
deriving DecidableEq

/-- Accumulated state of one check cycle of `src/index.js`. -/
structure CycleState where
  cache : List (String × StatusData)
  store : List (String × StatusData)
  checked : Nat
  changes : Nat
  ridesDown : Nat
  writes : Nat
  statusChanges : List ChangeEvent
deriving DecidableEq

/-- The body of the per-attraction loop of `checkStatusChanges` in
`src/index.js` (lines 461-494): filter, count non-operating rides, diff
against the cache, then `saveStatus`. -/
def processAttraction (watched : List String) (now : Nat)
    (cs : CycleState) (a : Attraction) : CycleState :=
  let currentStatus := jsStatus a.status
  if !shouldMonitorRide watched a.name then cs
  else
    let cs1 := {cs with checked := cs.checked + 1}
    let cs2 := if isDownStatus currentStatus then
        {cs1 with ridesDown := cs1.ridesDown + 1} else cs1
    let previousStatus := (cs2.cache.lookup a.id).map StatusData.status
    let cs3 := if jsTruthyNe previousStatus currentStatus then
        {cs2 with changes := cs2.changes + 1,
                  statusChanges := cs2.statusChanges ++
                    [⟨a.id, a.name, previousStatus.getD "", currentStatus⟩]}
      else cs2
    let saved := saveStatus ⟨cs3.cache, cs3.store⟩ a.id currentStatus a.name now
    {cs3 with cache := saved.1.cache, store := saved.1.store,
              writes := cs3.writes + (if saved.2 then 1 else 0)}

/-- Accumulated state of one check cycle of `src/unnamed/part_000` (no
in-memory cache: previous statuses are read from the durable store). -/
structure CycleV0State where
  store : List (String × StatusData)
  checked : Nat
  changes : Nat
  ridesDown : Nat
  writes : Nat
  statusChanges : List ChangeEvent
deriving DecidableEq

/-- The body of the per-attraction loop of `checkStatusChanges` in
`src/unnamed/part_000` (lines 383-413): same diffing, but `saveStatus`
(lines 88-94) writes to Firestore unconditionally. -/
def processAttraction_v0 (watched : List String) (now : Nat)
    (cs : CycleV0State) (a : Attraction) : CycleV0State :=
  let currentStatus := jsStatus a.status
  if !shouldMonitorRide watched a.name then cs
  else
    let cs1 := {cs with checked := cs.checked + 1}
    let cs2 := if isDownStatus currentStatus then
        {cs1 with ridesDown := cs1.ridesDown + 1} else cs1
    let previousStatus := (cs2.store.lookup a.id).map StatusData.status
    let cs3 := if jsTruthyNe previousStatus currentStatus then
        {cs2 with changes := cs2.changes + 1,
                  statusChanges := cs2.statusChanges ++
                    [⟨a.id, a.name, previousStatus.getD "", currentStatus⟩]}
      else cs2
    {cs3 with store := setDoc cs3.store a.id ⟨currentStatus, a.name, now⟩,
              writes := cs3.writes + 1}

/-- Per-park processing of `src/unnamed/part_000`: a failed or malformed
fetch (`none`) skips the park, otherwise the entity list is filtered to
attractions and folded through the per-attraction step. -/
def processPark_v0 (watched : List String) (now : Nat)
    (cs : CycleV0State) : Option (List Attraction) → CycleV0State
  | none => cs
  | some liveData =>
      (liveData.filter (fun e => e.entityType == "ATTRACTION")).foldl
        (processAttraction_v0 watched now) cs

/-- One whole check cycle of `src/unnamed/part_000` over the configured
parks, starting from durable store `store0` and zeroed counters. -/
def checkCycle_v0 (watched : List String) (now : Nat)
    (store0 : List (String × StatusData))
    (parks : List (Option (List Attraction))) : CycleV0State :=
  parks.foldl (processPark_v0 watched now) ⟨store0, 0, 0, 0, 0, []⟩

/-- Non-operating monitored attractions contributed by one park fetch. -/
def parkDownCount (watched : List String) : Option (List Attraction) → Nat
  | none => 0
  | some liveData =>
      (liveData.filter (fun e => e.entityType == "ATTRACTION")).countP
        (fun a => shouldMonitorRide watched a.name && isDownStatus (jsStatus a.status))

/-- Total count of non-operating monitored attractions over a cycle. -/
def monitoredDownCount (watched : List String)
    (parks : List (Option (List Attraction))) : Nat :=
  (parks.map (parkDownCount watched)).sum

/-- The interval choice of the `/check` handlers in `src/unnamed/part_000`
(lines 546-548 and 584-586): alert interval when any monitored ride was
non-operating, normal interval otherwise. -/
def postCheckNextInterval (alertIntervalSec normalIntervalSec ridesDown : Nat) : Nat :=
  if 0 < ridesDown then alertIntervalSec else normalIntervalSec

/-! ## Bedtime (quiet hours) scheduler, `src/index.js` lines 273-378 -/

/-- `isBedtime`: the suppression predicate, given the current hour already
resolved in the configured timezone. -/
def isBedtime (enabled : Bool) (bedtimeStart bedtimeEnd hour : Nat) : Bool :=
  if !enabled then false
  else if bedtimeStart < bedtimeEnd then
    decide (bedtimeStart ≤ hour) && decide (hour < bedtimeEnd)
  else
    decide (bedtimeStart ≤ hour) || decide (hour < bedtimeEnd)

/-- `getSecondsUntilBedtimeEnds`, given the wall-clock hour/minute/second in
the configured timezone.  JavaScript numbers are modelled as `Int`. -/
def getSecondsUntilBedtimeEnds (bedtimeEnd h m s : Nat) : Int :=
  let hoursUntilEnd : Int :=
    if h < bedtimeEnd then (bedtimeEnd : Int) - (h : Int)
    else (24 : Int) - (h : Int) + (bedtimeEnd : Int)
  let secondsUntilEnd : Int := hoursUntilEnd * 3600 - (m : Int) * 60 - (s : Int)
  max (secondsUntilEnd + 60) 60

/-- The scheduling decision returned by `getNextCheckDelay`. -/
structure ScheduleDecision where
  delaySeconds : Int
  reason : String
  isBedtime : Bool
deriving DecidableEq

/-- `getNextCheckDelay` from `src/index.js`: during bedtime the delay is the
time until the window ends, otherwise the normal interval. -/
def getNextCheckDelay (enabled : Bool) (bedtimeStart bedtimeEnd : Nat)
    (normalDelaySeconds : Int) (h m s : Nat) : ScheduleDecision :=
  if isBedtime enabled bedtimeStart bedtimeEnd h then
    let delaySeconds := getSecondsUntilBedtimeEnds bedtimeEnd h m s
    let hours := delaySeconds / 3600
    let minutes := (delaySeconds % 3600) / 60
    ⟨delaySeconds,
     s!"bedtime (sleeping for {hours}h {minutes}m until {bedtimeEnd}:00)", true⟩
  else
    ⟨normalDelaySeconds, "normal interval", false⟩

/-- Modelled from the spec wording of C4: the number of wall-clock seconds
from h:m:s until the next occurrence of `bedtimeEnd`:00:00, rolling to the
next day when the current hour is at or past the end hour. -/
def secondsUntilNextEndHour (bedtimeEnd h m s : Nat) : Int :=
  if h < bedtimeEnd then
    (bedtimeEnd : Int) * 3600 - ((h : Int) * 3600 + (m : Int) * 60 + (s : Int))
  else
    86400 + (bedtimeEnd : Int) * 3600 - ((h : Int) * 3600 + (m : Int) * 60 + (s : Int))

/-! ## Device directory and push channel -/

/-- A `devices` document as the push path reads it. -/
structure DeviceDoc where
  platform : String
  active : Bool
  invalid : Bool
deriving DecidableEq

/-- `DEVICE_CACHE_TTL_MS` from `src/index.js`. -/
def DEVICE_CACHE_TTL_MS : Nat := 60000

/-- The module-level `deviceCache = { tokens, loadedAt }`. -/
structure DeviceCache where
  tokens : List (String × DeviceDoc)
  loadedAt : Nat
deriving DecidableEq

/-- Result of one `getDeviceTokens` call: the returned list, the updated
cache, and whether a durable (Firestore) read was performed. -/
structure FetchResult where
  tokens : List (String × DeviceDoc)
  cache : DeviceCache
  didRead : Bool
deriving DecidableEq

/-- `getDeviceTokens` from `src/index.js` (lines 133-153): serve the cached
list when it is non-empty and younger than the TTL, otherwise re-read the
active devices from the durable store. -/
def getDeviceTokens (store : List (String × DeviceDoc)) (cache : DeviceCache)
    (now : Nat) : FetchResult :=
  if 0 < cache.tokens.length ∧ now - cache.loadedAt < DEVICE_CACHE_TTL_MS then
    ⟨cache.tokens, cache, false⟩
  else
    let tokens := store.filter (fun p => p.2.active)
    ⟨tokens, ⟨tokens, now⟩, true⟩

/-- The `deviceCache.loadedAt = 0` invalidation performed by every register,
unregister and mark-invalid mutation. -/
def invalidateDeviceCache (cache : DeviceCache) : DeviceCache :=
  ⟨cache.tokens, 0⟩

/-- Device store plus device cache, the state the push path mutates. -/
structure PushState where
  store : List (String × DeviceDoc)
  cache : DeviceCache
deriving DecidableEq

/-- Deactivation written by `markTokenInvalid`. -/
def deactivate (d : DeviceDoc) : DeviceDoc := ⟨d.platform, false, true⟩

/-- `markTokenInvalid` from `src/index.js` (lines 182-191): update the
document in place (`active=false, invalid=true`) and invalidate the cache. -/
def markTokenInvalid (st : PushState) (token : String) : PushState :=
  ⟨st.store.map (fun p => if p.1 = token then (p.1, deactivate p.2) else p),
   invalidateDeviceCache st.cache⟩

/-- Result of one FCM send, as reported by the provider. -/
inductive SendOutcome where
  | success : SendOutcome
  | failure : String → SendOutcome
deriving DecidableEq

/-- The two provider error codes that signal a permanently invalid token. -/
def isInvalidTokenCode (code : String) : Bool :=
  code == "messaging/invalid-registration-token" ||
  code == "messaging/registration-token-not-registered"

/-- Whether an outcome is a failure carrying an invalid-token code. -/
def isInvalidTokenError : SendOutcome → Bool
  | .success => false
  | .failure code => isInvalidTokenCode code

/-- Per-channel counters `{ sent, failed }`. -/
structure PushResult where
  sent : Nat
  failed : Nat
deriving DecidableEq

/-- The per-device send loop of `sendPushNotification`: count successes and
failures, and mark tokens invalid on the two permanent error codes. -/
def sendLoop (outcome : String → SendOutcome) :
    List (String × DeviceDoc) → PushState → Nat → Nat → PushState × PushResult
  | [], st, sent, failed => (st, ⟨sent, failed⟩)
  | d :: ds, st, sent, failed =>
    match outcome d.1 with
    | .success => sendLoop outcome ds st (sent + 1) failed
    | .failure code =>
      if isInvalidTokenCode code then
        sendLoop outcome ds (markTokenInvalid st d.1) sent (failed + 1)
      else
        sendLoop outcome ds st sent (failed + 1)

/-- `sendPushNotification` from `src/index.js` (lines 197-251): resolve the
targets through the device cache, send to each in turn, return counters. -/
def sendPushNotification (firebaseInit : Bool) (outcome : String → SendOutcome)
    (st : PushState) (now : Nat) : PushState × PushResult :=
  if !firebaseInit then (st, ⟨0, 0⟩)
  else
    let fr := getDeviceTokens st.store st.cache now
    let st1 : PushState := ⟨st.store, fr.cache⟩
    if fr.tokens.length = 0 then (st1, ⟨0, 0⟩)
    else sendLoop outcome fr.tokens st1 0 0

/-- `sendSmsNotification` from `src/unnamed/part_000` (lines 213-251): send
to every configured recipient, isolating per-recipient failures; the
parallel `Promise.all` fan-out is modelled by a fold over the recipients,
which produces the same counters. -/
def sendSmsNotification (twilioConfigured enableSms : Bool)
    (recipients : List String) (smsOk : String → Bool) : PushResult :=
  if !twilioConfigured then ⟨0, 0⟩
  else if !enableSms then ⟨0, 0⟩
  else if recipients.length = 0 then ⟨0, 0⟩
  else
    recipients.foldl
      (fun acc rcpt => if smsOk rcpt then ⟨acc.sent + 1, acc.failed⟩
                       else ⟨acc.sent, acc.failed + 1⟩) ⟨0, 0⟩

/-! ## Notification dispatch section of `checkStatusChanges` -/

/-- The 1-3 event dispatch loop of `src/index.js` (lines 513-524): each
iteration overwrites `notificationResults` with the latest send's counters.
`outcome i` gives the per-token send outcomes of the i-th dispatch. -/
def dispatchLoop (firebaseInit : Bool) (outcome : Nat → String → SendOutcome)
    (now : Nat) :
    List ChangeEvent → PushState → Nat → Option PushResult → PushState × Option PushResult
  | [], st, _, res => (st, res)
  | _ :: cs, st, i, _ =>
    let r := sendPushNotification firebaseInit (outcome i) st now
    dispatchLoop firebaseInit outcome now cs r.1 (i + 1) (some r.2)

/-- The notification section of `checkStatusChanges` (`src/index.js` lines
511-536): no events means no dispatch, 1-3 events mean one notification per
event, 4+ events mean a single summary notification. -/
def dispatchNotifications (firebaseInit : Bool)
    (outcome : Nat → String → SendOutcome) (now : Nat)
    (changes : List ChangeEvent) (st : PushState) : PushState × Option PushResult :=
  if changes.length = 0 then (st, none)
  else if changes.length ≤ 3 then dispatchLoop firebaseInit outcome now changes st 0 none
  else
    let r := sendPushNotification firebaseInit (outcome 0) st now
    (r.1, some r.2)

/-- The per-dispatch counters produced along the 1-3 event loop, in dispatch
order (threading the same device state as `dispatchLoop`). -/
def dispatchResults (firebaseInit : Bool) (outcome : Nat → String → SendOutcome)
    (now : Nat) : List ChangeEvent → PushState → Nat → List PushResult
  | [], _, _ => []
  | _ :: cs, st, i =>
    let r := sendPushNotification firebaseInit (outcome i) st now
    r.2 :: dispatchResults firebaseInit outcome now cs r.1 (i + 1)

/-- The last element of a result list, with a default for the empty list. -/
def lastResult : List PushResult → Option PushResult → Option PushResult
  | [], res => res
  | r :: rs, _ => lastResult rs (some r)

/-- Pointwise sum of counters. -/
def addResults (x y : PushResult) : PushResult := ⟨x.sent + y.sent, x.failed + y.failed⟩

/-- Modelled from the spec wording of C3: the same dispatch loop, but with
the per-dispatch counters aggregated (summed) instead of overwritten. -/
def dispatchLoopAgg (firebaseInit : Bool) (outcome : Nat → String → SendOutcome)
    (now : Nat) :
    List ChangeEvent → PushState → Nat → PushResult → PushState × PushResult
  | [], st, _, acc => (st, acc)
  | _ :: cs, st, i, acc =>
    let r := sendPushNotification firebaseInit (outcome i) st now
    dispatchLoopAgg firebaseInit outcome now cs r.1 (i + 1) (addResults acc r.2)

/-- Modelled from the spec wording of C3: the notification section with the
returned counters aggregated over all notifications dispatched. -/
def dispatchNotificationsAgg (firebaseInit : Bool)
    (outcome : Nat → String → SendOutcome) (now : Nat)
    (changes : List ChangeEvent) (st : PushState) : PushState × Option PushResult :=
  if changes.length = 0 then (st, none)
  else if changes.length ≤ 3 then
    let r := dispatchLoopAgg firebaseInit outcome now changes st 0 ⟨0, 0⟩
    (r.1, some r.2)
  else
    let r := sendPushNotification firebaseInit (outcome 0) st now
    (r.1, some r.2)

/-! ## Device registration (`src/index.js` lines 155-170) -/

/-- A JavaScript value as it appears in registration metadata. -/
inductive JVal where
  | undef : JVal
  | str : String → JVal
  | boolean : Bool → JVal
deriving DecidableEq

/-- JavaScript truthiness of a `JVal`. -/
def jsTruthy : JVal → Bool
  | .undef => false
  | .str s => s != ""
  | .boolean b => b

/-- JavaScript `a || b`. -/
def jsOr (a b : JVal) : JVal := if jsTruthy a then a else b

/-- Field access on a JavaScript object: absent keys read as `undefined`. -/
def objGet (o : List (String × JVal)) (k : String) : JVal :=
  (o.lookup k).getD JVal.undef

/-- `cleanMetadata`: drop the entries whose value is `undefined`. -/
def cleanFields (metadata : List (String × JVal)) : List (String × JVal) :=
  metadata.filter (fun q => q.2 != JVal.undef)

/-- The object passed to `devicesCollection.doc(token).set(..., {merge:true})`
by `registerDevice` in `src/index.js`: fixed fields `active`, `registeredAt`,
`lastUpdated`, a `platform` default, then the cleaned metadata spread over. -/
def registerWritePayload (metadata : List (String × JVal)) (now : String) :
    List (String × JVal) :=
  (cleanFields metadata).foldl (fun o q => setDoc o q.1 q.2)
    [("active", JVal.boolean true), ("registeredAt", JVal.str now),
     ("lastUpdated", JVal.str now),
     ("platform", jsOr (objGet (cleanFields metadata) "platform") (JVal.str "ios"))]

/-- Firestore `set(payload, {merge: true})` on a single document: every field
present in the payload overlays the stored field of the same name. -/
def mergeSet (doc payload : List (String × JVal)) : List (String × JVal) :=
  payload.foldl (fun d q => setDoc d q.1 q.2) doc

/-- `registerDevice` from `src/index.js`: an upsert of the token's document
with the merge payload above. -/
def registerDevice (devices : List (String × List (String × JVal)))
    (token : String) (metadata : List (String × JVal)) (now : String) :
    List (String × List (String × JVal)) :=
  setDoc devices token
    (mergeSet ((devices.lookup token).getD []) (registerWritePayload metadata now))

/-- The document stored for `token` after a registration that the `/devices`
endpoint forwards as `{ platform, deviceName }`. -/
def registeredDoc (devices : List (String × List (String × JVal)))
    (token : String) (p d : JVal) (now : String) : List (String × JVal) :=
  ((registerDevice devices token [("platform", p), ("deviceName", d)] now).lookup
    token).getD []

/-! ## Helper lemmas -/

theorem lookup_setDoc_self (m : List (String × α)) (k : String) (v : α) :
    (setDoc m k v).lookup k = some v := by
  simp [setDoc, List.lookup]

theorem lookup_filter_ne (m : List (String × α)) (k k' : String) (h : k' ≠ k) :
    (m.filter (fun p => p.1 != k)).lookup k' = m.lookup k' := by
  induction m with
  | nil => rfl
  | cons a t ih =>
    by_cases hak : a.1 = k
    · have hk' : (k' == a.1) = false := by simp [hak, h]
      have hkk : (k' == k) = false := by simp [h]
      simp [List.filter_cons, hak, List.lookup, hk', hkk, ih]
    · by_cases hka : k' = a.1
      · simp [List.filter_cons, bne_iff_ne.mpr hak, List.lookup, hka]
      · have hk' : (k' == a.1) = false := by simp [hka]
        simp [List.filter_cons, bne_iff_ne.mpr hak, List.lookup, hk', ih]

theorem lookup_setDoc_ne (m : List (String × α)) (k k' : String) (v : α)
    (h : k' ≠ k) : (setDoc m k v).lookup k' = m.lookup k' := by
  have hk' : (k' == k) = false := by simp [h]
  simp [setDoc, List.lookup, hk', lookup_filter_ne m k k' h]

theorem objGet_setDoc_self (o : List (String × JVal)) (k : String) (v : JVal) :
    objGet (setDoc o k v) k = v := by
  simp [objGet, lookup_setDoc_self]

theorem objGet_setDoc_ne (o : List (String × JVal)) (k k' : String) (v : JVal)
    (h : k' ≠ k) : objGet (setDoc o k v) k' = objGet o k' := by
  simp [objGet, lookup_setDoc_ne o k k' v h]

theorem sendLoop_counters (outcome : String → SendOutcome)
    (ds : List (String × DeviceDoc)) (st : PushState) (sent failed : Nat) :
    (sendLoop outcome ds st sent failed).2.sent
      + (sendLoop outcome ds st sent failed).2.failed
      = sent + failed + ds.length := by
  induction ds generalizing st sent failed with
  | nil => simp [sendLoop]
  | cons d ds ih =>
    cases h : outcome d.1 with
    | success => simp [sendLoop, h, ih]; omega
    | failure code =>
      by_cases hc : isInvalidTokenCode code <;> simp [sendLoop, h, hc, ih] <;> omega

theorem smsLoop_counters (smsOk : String → Bool) (recipients : List String)
    (acc : PushResult) :
    (recipients.foldl
      (fun acc rcpt => if smsOk rcpt then ⟨acc.sent + 1, acc.failed⟩
                       else ⟨acc.sent, acc.failed + 1⟩) acc).sent
      + (recipients.foldl
          (fun acc rcpt => if smsOk rcpt then (⟨acc.sent + 1, acc.failed⟩ : PushResult)
                           else ⟨acc.sent, acc.failed + 1⟩) acc).failed
      = acc.sent + acc.failed + recipients.length := by
  induction recipients generalizing acc with
  | nil => simp
  | cons r rs ih =>
    by_cases h : smsOk r <;> simp [h, ih] <;> omega

theorem processAttraction_v0_ridesDown (w : List String) (now : Nat)
    (cs : CycleV0State) (a : Attraction) :
    (processAttraction_v0 w now cs a).ridesDown
      = cs.ridesDown
        + (if shouldMonitorRide w a.name && isDownStatus (jsStatus a.status)
           then 1 else 0) := by
  by_cases hm : shouldMonitorRide w a.name
  · by_cases hd : isDownStatus (jsStatus a.status) <;>
      simp only [processAttraction_v0, hm, hd, Bool.not_true, Bool.true_and,
        Bool.false_and, if_true, if_false, Bool.false_eq_true, ite_false, ite_true] <;>
      split <;> simp
  · simp [processAttraction_v0, hm]

theorem foldl_processAttraction_v0_ridesDown (w : List String) (now : Nat)
    (l : List Attraction) (cs : CycleV0State) :
    (l.foldl (processAttraction_v0 w now) cs).ridesDown
      = cs.ridesDown
        + l.countP (fun a => shouldMonitorRide w a.name && isDownStatus (jsStatus a.status)) := by
  induction l generalizing cs with
  | nil => simp
  | cons a l ih =>
    rw [List.foldl_cons, ih, processAttraction_v0_ridesDown, List.countP_cons]
    ring

theorem foldl_processPark_v0_ridesDown (w : List String) (now : Nat)
    (parks : List (Option (List Attraction))) (cs : CycleV0State) :
    (parks.foldl (processPark_v0 w now) cs).ridesDown
      = cs.ridesDown + monitoredDownCount w parks := by
  induction parks generalizing cs with
  | nil => simp [monitoredDownCount]
  | cons op parks ih =>
    rw [List.foldl_cons, ih]
    have hp : (processPark_v0 w now cs op).ridesDown
        = cs.ridesDown + parkDownCount w op := by
      cases op with
      | none => simp [processPark_v0, parkDownCount]
      | some liveData =>
        simp [processPark_v0, parkDownCount, foldl_processAttraction_v0_ridesDown]
    rw [hp]
    simp [monitoredDownCount]
    ring

theorem bedtime_delay_eq (bedtimeEnd h m s : Nat) (hh : h < 24) (hm : m < 60)
    (hs : s < 60) :
    getSecondsUntilBedtimeEnds bedtimeEnd h m s
      = secondsUntilNextEndHour bedtimeEnd h m s + 60 := by
  unfold getSecondsUntilBedtimeEnds secondsUntilNextEndHour
  by_cases hlt : h < bedtimeEnd
  · simp only [if_pos hlt]
    rw [max_eq_left (by omega)]
    ring
  · simp only [if_neg hlt]
    rw [max_eq_left (by omega)]
    ring


theorem sendLoop_store (outcome : String → SendOutcome)
    (ds : List (String × DeviceDoc)) (st : PushState) (sent failed : Nat) :
    (sendLoop outcome ds st sent failed).1.store
      = st.store.map (fun p =>
          if (∃ d ∈ ds, d.1 = p.1) ∧ isInvalidTokenError (outcome p.1) = true
          then (p.1, deactivate p.2) else p) := by
  induction ds generalizing st sent failed with
  | nil => simp [sendLoop]
  | cons d ds ih =>
    have hshift : ∀ p : String × DeviceDoc, d.1 ≠ p.1 →
        (((∃ x ∈ d :: ds, x.1 = p.1) ∧ isInvalidTokenError (outcome p.1) = true)
          ↔ ((∃ x ∈ ds, x.1 = p.1) ∧ isInvalidTokenError (outcome p.1) = true)) := by
      intro p hk
      constructor
      · rintro ⟨⟨x, hx, hx1⟩, hg⟩
        rcases List.mem_cons.mp hx with rfl | hx
        · exact absurd hx1 hk
        · exact ⟨⟨x, hx, hx1⟩, hg⟩
      · rintro ⟨⟨x, hx, hx1⟩, hg⟩
        exact ⟨⟨x, List.mem_cons_of_mem _ hx, hx1⟩, hg⟩
    cases h : outcome d.1 with
    | success =>
      have hstep : sendLoop outcome (d :: ds) st sent failed
          = sendLoop outcome ds st (sent + 1) failed := by
        simp [sendLoop, h]
      rw [hstep, ih]
      congr 1
      funext p
      by_cases hk : d.1 = p.1
      · have hfalse : isInvalidTokenError (outcome p.1) = false := by
          rw [← hk, h]
          rfl
        rw [if_neg (by rintro ⟨-, hg⟩; rw [hfalse] at hg; exact Bool.false_ne_true hg),
            if_neg (by rintro ⟨-, hg⟩; rw [hfalse] at hg; exact Bool.false_ne_true hg)]
      · rw [if_congr (hshift p hk) rfl rfl]
    | failure code =>
      by_cases hc : isInvalidTokenCode code
      · have hstep : sendLoop outcome (d :: ds) st sent failed
            = sendLoop outcome ds (markTokenInvalid st d.1) sent (failed + 1) := by
          simp [sendLoop, h, hc]
        rw [hstep, ih]
        have hst : (markTokenInvalid st d.1).store
            = st.store.map (fun p => if p.1 = d.1 then (p.1, deactivate p.2) else p) := rfl
        rw [hst, List.map_map]
        congr 1
        funext p
        by_cases hk : p.1 = d.1
        · have hinv : isInvalidTokenError (outcome p.1) = true := by
            rw [hk, h, isInvalidTokenError, hc]
          have hcons : (∃ x ∈ d :: ds, x.1 = p.1) ∧ isInvalidTokenError (outcome p.1) = true :=
            ⟨⟨d, List.mem_cons_self d ds, hk.symm⟩, hinv⟩
          dsimp only [Function.comp]
          rw [if_pos hk]
          dsimp only
          rw [if_pos hcons]
          by_cases hex : (∃ x ∈ ds, x.1 = p.1) ∧ isInvalidTokenError (outcome p.1) = true
          · rw [if_pos hex]
            rfl
          · rw [if_neg hex]
        · have hk' : d.1 ≠ p.1 := fun hh => hk hh.symm
          dsimp only [Function.comp]
          rw [if_neg hk]
          exact if_congr (hshift p hk').symm rfl rfl
      · have hstep : sendLoop outcome (d :: ds) st sent failed
            = sendLoop outcome ds st sent (failed + 1) := by
          simp [sendLoop, h, hc]
        rw [hstep, ih]
        congr 1
        funext p
        by_cases hk : d.1 = p.1
        · have hfalse : isInvalidTokenError (outcome p.1) = false := by
            rw [← hk, h, isInvalidTokenError]
            simpa using hc
          rw [if_neg (by rintro ⟨-, hg⟩; rw [hfalse] at hg; exact Bool.false_ne_true hg),
              if_neg (by rintro ⟨-, hg⟩; rw [hfalse] at hg; exact Bool.false_ne_true hg)]
        · rw [if_congr (hshift p hk) rfl rfl]

theorem sendLoop_cache (outcome : String → SendOutcome)
    (ds : List (String × DeviceDoc)) (st : PushState) (sent failed : Nat) :
    (sendLoop outcome ds st sent failed).1.cache
      = if ∃ d ∈ ds, isInvalidTokenError (outcome d.1) = true
        then ⟨st.cache.tokens, 0⟩ else st.cache := by
  induction ds generalizing st sent failed with
  | nil => simp [sendLoop]
  | cons d ds ih =>
    cases h : outcome d.1 with
    | success =>
      have hstep : sendLoop outcome (d :: ds) st sent failed
          = sendLoop outcome ds st (sent + 1) failed := by
        simp [sendLoop, h]
      have hfalse : isInvalidTokenError (outcome d.1) = false := by
        rw [h]
        rfl
      rw [hstep, ih]
      have hiff : (∃ x ∈ d :: ds, isInvalidTokenError (outcome x.1) = true)
          ↔ (∃ x ∈ ds, isInvalidTokenError (outcome x.1) = true) := by
        constructor
        · rintro ⟨x, hx, hg⟩
          rcases List.mem_cons.mp hx with rfl | hx
          · rw [hfalse] at hg
            exact absurd hg (by simp)
          · exact ⟨x, hx, hg⟩
        · rintro ⟨x, hx, hg⟩
          exact ⟨x, List.mem_cons_of_mem _ hx, hg⟩
      rw [if_congr hiff rfl rfl]
    | failure code =>
      by_cases hc : isInvalidTokenCode code
      · have hstep : sendLoop outcome (d :: ds) st sent failed
            = sendLoop outcome ds (markTokenInvalid st d.1) sent (failed + 1) := by
          simp [sendLoop, h, hc]
        have hinv : isInvalidTokenError (outcome d.1) = true := by
          rw [h, isInvalidTokenError, hc]
        have hconsEx : ∃ x ∈ d :: ds, isInvalidTokenError (outcome x.1) = true :=
          ⟨d, List.mem_cons_self d ds, hinv⟩
        rw [hstep, ih]
        by_cases hex : ∃ x ∈ ds, isInvalidTokenError (outcome x.1) = true
        · rw [if_pos hex, if_pos hconsEx]
          rfl
        · rw [if_neg hex, if_pos hconsEx]
          rfl
      · have hstep : sendLoop outcome (d :: ds) st sent failed
            = sendLoop outcome ds st sent (failed + 1) := by
          simp [sendLoop, h, hc]
        have hfalse : isInvalidTokenError (outcome d.1) = false := by
          rw [h, isInvalidTokenError]
          simpa using hc
        rw [hstep, ih]
        have hiff : (∃ x ∈ d :: ds, isInvalidTokenError (outcome x.1) = true)
            ↔ (∃ x ∈ ds, isInvalidTokenError (outcome x.1) = true) := by
          constructor
          · rintro ⟨x, hx, hg⟩
            rcases List.mem_cons.mp hx with rfl | hx
            · rw [hfalse] at hg
              exact absurd hg (by simp)
            · exact ⟨x, hx, hg⟩
          · rintro ⟨x, hx, hg⟩
            exact ⟨x, List.mem_cons_of_mem _ hx, hg⟩
        rw [if_congr hiff rfl rfl]


theorem lookup_eq_none_of_keys_ne (m : List (String × α)) (k : String)
    (h : ∀ q ∈ m, q.1 ≠ k) : m.lookup k = none := by
  induction m with
  | nil => rfl
  | cons a t ih =>
    have hka : (k == a.1) = false := by
      have := h a (List.mem_cons_self a t)
      simp [Ne.symm this]
    simp only [List.lookup, hka]
    exact ih fun q hq => h q (List.mem_cons_of_mem _ hq)

theorem nodup_keys_setDoc (m : List (String × α)) (k : String) (v : α)
    (h : (m.map Prod.fst).Nodup) : ((setDoc m k v).map Prod.fst).Nodup := by
  rw [setDoc, List.map_cons, List.nodup_cons]
  constructor
  · intro hmem
    obtain ⟨q, hq, hq1⟩ := List.mem_map.mp hmem
    have := List.of_mem_filter hq
    rw [hq1] at this
    simp at this
  · exact h.sublist ((List.filter_sublist m).map Prod.fst)

theorem objGet_mergeSet (payload : List (String × JVal)) (old : List (String × JVal))
    (k : String) (hnd : (payload.map Prod.fst).Nodup) :
    objGet (mergeSet old payload) k
      = match payload.lookup k with
        | some v => v
        | none => objGet old k := by
  induction payload generalizing old with
  | nil => rfl
  | cons q qs ih =>
    have hnd' : (qs.map Prod.fst).Nodup := (List.nodup_cons.mp (by simpa using hnd)).2
    have hq : q.1 ∉ qs.map Prod.fst := (List.nodup_cons.mp (by simpa using hnd)).1
    rw [show mergeSet old (q :: qs) = mergeSet (setDoc old q.1 q.2) qs from rfl, ih _ hnd']
    by_cases hk : k = q.1
    · have hqs : qs.lookup k = none := by
        apply lookup_eq_none_of_keys_ne
        intro r hr hrk
        have : r.1 ∈ qs.map Prod.fst := List.mem_map_of_mem Prod.fst hr
        rw [hrk, hk] at this
        exact hq this
      have hlk : (q :: qs).lookup k = some q.2 := by
        simp [List.lookup, hk]
      simp only [hqs, hlk]
      rw [hk]
      exact objGet_setDoc_self old q.1 q.2
    · have hke : (k == q.1) = false := by simp [hk]
      have hlk : (q :: qs).lookup k = qs.lookup k := by
        simp [List.lookup, hke]
      rw [hlk]
      cases hl : qs.lookup k with
      | some v => simp only [hl]
      | none =>
        simp only [hl]
        exact objGet_setDoc_ne old q.1 k q.2 hk

theorem nodup_keys_quad (x y z w : JVal) :
    (([("active", x), ("registeredAt", y), ("lastUpdated", z),
       ("platform", w)] : List (String × JVal)).map Prod.fst).Nodup := by
  show (["active", "registeredAt", "lastUpdated", "platform"] : List String).Nodup
  decide

theorem registeredDoc_eq (devices : List (String × List (String × JVal)))
    (token : String) (p d : JVal) (now : String) :
    registeredDoc devices token p d now
      = mergeSet ((devices.lookup token).getD [])
          (registerWritePayload [("platform", p), ("deviceName", d)] now) := by
  unfold registeredDoc registerDevice
  rw [lookup_setDoc_self]
  rfl

theorem dispatchLoop_eq_lastResult (firebaseInit : Bool)
    (outcome : Nat → String → SendOutcome) (now : Nat) (cs : List ChangeEvent)
    (st : PushState) (i : Nat) (res : Option PushResult) :
    (dispatchLoop firebaseInit outcome now cs st i res).2
      = lastResult (dispatchResults firebaseInit outcome now cs st i) res := by
  induction cs generalizing st i res with
  | nil => rfl
  | cons c cs ih => simp [dispatchLoop, dispatchResults, lastResult, ih]

theorem saveStatus_flag_iff (st : StatusState) (rideId status rideName : String)
    (now : Nat) :
    ((saveStatus st rideId status rideName now).2 = true ↔
      ∀ q, st.cache.lookup rideId = some q → q.status ≠ status) := by
  unfold saveStatus
  cases hl : st.cache.lookup rideId with
  | none => simp
  | some p => by_cases hs : p.status = status <;> simp [hs]

theorem saveStatus_false_store (st : StatusState) (rideId status rideName : String)
    (now : Nat) :
    (saveStatus st rideId status rideName now).2 = false →
    (saveStatus st rideId status rideName now).1.store = st.store := by
  unfold saveStatus
  cases hl : st.cache.lookup rideId with
  | none => simp
  | some p => by_cases hs : p.status = status <;> simp [hs]

theorem processAttraction_unchanged (w : List String) (now : Nat) (cs : CycleState)
    (a : Attraction) (p : StatusData) (hl : cs.cache.lookup a.id = some p)
    (hs : p.status = jsStatus a.status) :
    (processAttraction w now cs a).statusChanges = cs.statusChanges
    ∧ (processAttraction w now cs a).store = cs.store
    ∧ (processAttraction w now cs a).writes = cs.writes := by
  by_cases hm : shouldMonitorRide w a.name
  · by_cases hd : isDownStatus (jsStatus a.status) <;>
      simp [processAttraction, hm, hd, hl, hs, jsTruthyNe, saveStatus]
  · simp [processAttraction, hm]

theorem processAttraction_v0_writes (w : List String) (now : Nat)
    (cs : CycleV0State) (a : Attraction) (hm : shouldMonitorRide w a.name = true) :
    (processAttraction_v0 w now cs a).writes = cs.writes + 1 := by
  by_cases hd : isDownStatus (jsStatus a.status) <;>
    simp only [processAttraction_v0, hm, hd, Bool.not_true, Bool.false_eq_true,
      if_false, ite_true, ite_false] <;>
    split <;> simp

/-! ## Claim theorems -/

/-- Claim C2 (corrected): with quiet hours configured as start=1, end=7 the
window does not wrap (start < end), so hour 0 is NOT suppressed, refuting
the claimed "hour 0 suppressed (wrap case)". -/
theorem c2_counterexample : ¬(isBedtime true 1 7 0 = true) := by decide

/-- Claim C2 as amended: with start=1, end=7 the suppression predicate
yields hour 0 not suppressed, hour 7 not suppressed, hour 6 suppressed. -/
theorem c2_quiet_hours_boundary :
    isBedtime true 1 7 0 = false ∧ isBedtime true 1 7 7 = false
      ∧ isBedtime true 1 7 6 = true := by decide

/-- Claim C4 (confirmed): whenever quiet-hours suppression is active, the
next-check delay equals the wall-clock seconds until the next occurrence of
the configured end hour (rolling to the next day when the current hour is at
or past the end hour) plus a fixed 60-second buffer, and is never below 60
seconds. -/
theorem c4_bedtime_delay (enabled : Bool) (bedtimeStart bedtimeEnd : Nat)
    (normalDelaySeconds : Int) (h m s : Nat) (hh : h < 24) (hm : m < 60)
    (hs : s < 60)
    (hb : isBedtime enabled bedtimeStart bedtimeEnd h = true) :
    (getNextCheckDelay enabled bedtimeStart bedtimeEnd normalDelaySeconds h m s).delaySeconds
      = secondsUntilNextEndHour bedtimeEnd h m s + 60
    ∧ 60 ≤ (getNextCheckDelay enabled bedtimeStart bedtimeEnd normalDelaySeconds h m s).delaySeconds := by
  have hdelay :
      (getNextCheckDelay enabled bedtimeStart bedtimeEnd normalDelaySeconds h m s).delaySeconds
        = getSecondsUntilBedtimeEnds bedtimeEnd h m s := by
    simp [getNextCheckDelay, hb]
  refine ⟨?_, ?_⟩
  · rw [hdelay, bedtime_delay_eq bedtimeEnd h m s hh hm hs]
  · rw [hdelay]
    unfold getSecondsUntilBedtimeEnds
    exact le_max_right _ _

/-- Witness for C4 at a concrete clock reading (3:30:15, end hour 7). -/
theorem c4_bedtime_delay_witness :
    (3 < 24 ∧ 30 < 60 ∧ 15 < 60 ∧ isBedtime true 1 7 3 = true)
    ∧ (getNextCheckDelay true 1 7 30 3 30 15).delaySeconds
        = secondsUntilNextEndHour 7 3 30 15 + 60
    ∧ 60 ≤ (getNextCheckDelay true 1 7 30 3 30 15).delaySeconds :=
  ⟨by decide,
   c4_bedtime_delay true 1 7 30 3 30 15 (by decide) (by decide) (by decide) (by decide)⟩

/-- Claim C6 (corrected): the claimed "a second call within the TTL performs
no durable read" fails when the cached list is empty: after a first load
that found no active devices, a second call 1000 ms later (well within the
60000 ms TTL) performs another durable read. -/
theorem c6_counterexample :
    (getDeviceTokens [] ⟨[], 0⟩ 1000).cache = ⟨[], 1000⟩
    ∧ 2000 - (1000 : Nat) < DEVICE_CACHE_TTL_MS
    ∧ ¬((getDeviceTokens [] ⟨[], 1000⟩ 2000).didRead = false) := by decide

/-- Claim C6 as amended: a call within the TTL returns the identical cached
list without a durable read provided the cached list is non-empty; and any
call after an invalidating mutation (which zeroes `loadedAt`) performs a
fresh durable read whenever the clock reads at least one TTL past the
epoch. -/
theorem c6_device_cache (store : List (String × DeviceDoc)) (cache : DeviceCache)
    (now : Nat) :
    (cache.tokens ≠ [] → now - cache.loadedAt < DEVICE_CACHE_TTL_MS →
      getDeviceTokens store cache now = ⟨cache.tokens, cache, false⟩)
    ∧ (∀ (store2 : List (String × DeviceDoc)) (now2 : Nat),
        DEVICE_CACHE_TTL_MS ≤ now2 →
        (getDeviceTokens store2 (invalidateDeviceCache cache) now2).didRead = true) := by
  constructor
  · intro hne hfresh
    unfold getDeviceTokens
    rw [if_pos ⟨List.length_pos.mpr hne, hfresh⟩]
  · intro store2 now2 hge
    unfold getDeviceTokens invalidateDeviceCache
    rw [if_neg (by simp; omega)]

/-- Witness for C6 as amended: a warm non-empty cache is served without a
read, and a post-invalidation call re-reads. -/
theorem c6_device_cache_witness :
    ([("t", (⟨"ios", true, false⟩ : DeviceDoc))] ≠ ([] : List (String × DeviceDoc))
      ∧ 70000 - (50000 : Nat) < DEVICE_CACHE_TTL_MS
      ∧ DEVICE_CACHE_TTL_MS ≤ (70000 : Nat))
    ∧ getDeviceTokens [] ⟨[("t", ⟨"ios", true, false⟩)], 50000⟩ 70000
        = ⟨[("t", ⟨"ios", true, false⟩)], ⟨[("t", ⟨"ios", true, false⟩)], 50000⟩, false⟩
    ∧ (getDeviceTokens []
        (invalidateDeviceCache ⟨[("t", ⟨"ios", true, false⟩)], 50000⟩) 70000).didRead = true :=
  ⟨by decide,
   (c6_device_cache [] ⟨[("t", ⟨"ios", true, false⟩)], 50000⟩ 70000).1
     (by decide) (by decide),
   (c6_device_cache [] ⟨[("t", ⟨"ios", true, false⟩)], 50000⟩ 70000).2
     [] 70000 (by decide)⟩

/-- Claim C7 (confirmed): the `/check` handlers of the part_000 variant pick
the alert interval exactly when the cycle counted at least one non-operating
(DOWN, REFURBISHMENT or CLOSED) monitored ride, and the normal interval when
that count is zero. -/
theorem c7_alert_mode_selection (w : List String) (now : Nat)
    (store0 : List (String × StatusData)) (parks : List (Option (List Attraction)))
    (alert normal : Nat) :
    (0 < (checkCycle_v0 w now store0 parks).ridesDown →
      postCheckNextInterval alert normal (checkCycle_v0 w now store0 parks).ridesDown = alert)
    ∧ ((checkCycle_v0 w now store0 parks).ridesDown = 0 →
      postCheckNextInterval alert normal (checkCycle_v0 w now store0 parks).ridesDown = normal)
    ∧ (checkCycle_v0 w now store0 parks).ridesDown = monitoredDownCount w parks := by
  refine ⟨fun hpos => ?_, fun hzero => ?_, ?_⟩
  · simp [postCheckNextInterval, hpos]
  · simp [postCheckNextInterval, hzero]
  · unfold checkCycle_v0
    rw [foldl_processPark_v0_ridesDown]
    simp

/-- Witness for C7: one DOWN ride selects the alert interval, none selects
the normal interval. -/
theorem c7_alert_mode_selection_witness :
    postCheckNextInterval 60 300
      (checkCycle_v0 [] 0 [] [some [⟨"r1", "Coaster", "ATTRACTION", some "DOWN"⟩]]).ridesDown = 60
    ∧ postCheckNextInterval 60 300
        (checkCycle_v0 [] 0 [] [some [⟨"r1", "Coaster", "ATTRACTION", some "OPERATING"⟩]]).ridesDown = 300 :=
  ⟨(c7_alert_mode_selection [] 0 [] [some [⟨"r1", "Coaster", "ATTRACTION", some "DOWN"⟩]] 60 300).1
     (by decide),
   (c7_alert_mode_selection [] 0 [] [some [⟨"r1", "Coaster", "ATTRACTION", some "OPERATING"⟩]] 60 300).2.1
     (by decide)⟩

/-- Claim C9 (confirmed): the per-target send loops are total over the
resolved target list — a failure on one target is counted and the loop
continues — so the returned counters always satisfy
sent + failed = number of targets attempted, for the push channel and for
the SMS channel. -/
theorem c9_failure_isolation (outcome : String → SendOutcome) (st : PushState)
    (now : Nat) (recipients : List String) (smsOk : String → Bool) :
    ((sendPushNotification true outcome st now).2.sent
       + (sendPushNotification true outcome st now).2.failed
       = (getDeviceTokens st.store st.cache now).tokens.length)
    ∧ ((sendSmsNotification true true recipients smsOk).sent
       + (sendSmsNotification true true recipients smsOk).failed
       = recipients.length) := by
  constructor
  · unfold sendPushNotification
    by_cases hlen : (getDeviceTokens st.store st.cache now).tokens.length = 0
    · simp [hlen]
    · simp [hlen, sendLoop_counters]
  · unfold sendSmsNotification
    by_cases hlen : recipients.length = 0
    · simp [hlen]
    · simp [hlen, smsLoop_counters]

/-- Claim C1 (corrected): the claimed "no durable write when the stored
status equals the observed status" fails in the part_000 variant, whose
`saveStatus` writes to Firestore unconditionally: here the stored status
equals the observed status, no event is emitted, yet a durable write
occurs. -/
theorem c1_counterexample :
    ((⟨[("r1", ⟨"OPERATING", "Rocket", 0⟩)], 0, 0, 0, 0, []⟩ : CycleV0State).store.lookup
        "r1").map StatusData.status = some (jsStatus (some "OPERATING"))
    ∧ (processAttraction_v0 [] 5
        ⟨[("r1", ⟨"OPERATING", "Rocket", 0⟩)], 0, 0, 0, 0, []⟩
        ⟨"r1", "Rocket", "ATTRACTION", some "OPERATING"⟩).statusChanges = []
    ∧ ¬((processAttraction_v0 [] 5
        ⟨[("r1", ⟨"OPERATING", "Rocket", 0⟩)], 0, 0, 0, 0, []⟩
        ⟨"r1", "Rocket", "ATTRACTION", some "OPERATING"⟩).writes = 0) := by decide

/-- Claim C1 as amended: in the cached variant (src/index.js) the claim
holds as stated — `saveStatus` reports a write exactly when no prior cache
entry exists or the stored status differs, a false flag leaves the durable
store untouched, and an observation matching the cached status emits no
event and performs no durable write; in the uncached part_000 variant a
durable write occurs on every monitored observation regardless. -/
theorem c1_change_gating :
    (∀ (st : StatusState) (rideId status rideName : String) (now : Nat),
      ((saveStatus st rideId status rideName now).2 = true ↔
        ∀ q, st.cache.lookup rideId = some q → q.status ≠ status)
      ∧ ((saveStatus st rideId status rideName now).2 = false →
        (saveStatus st rideId status rideName now).1.store = st.store))
    ∧ (∀ (w : List String) (now : Nat) (cs : CycleState) (a : Attraction)
        (p : StatusData),
      cs.cache.lookup a.id = some p → p.status = jsStatus a.status →
      (processAttraction w now cs a).statusChanges = cs.statusChanges
      ∧ (processAttraction w now cs a).store = cs.store
      ∧ (processAttraction w now cs a).writes = cs.writes)
    ∧ (∀ (w : List String) (now : Nat) (cs : CycleV0State) (a : Attraction),
      shouldMonitorRide w a.name = true →
      (processAttraction_v0 w now cs a).writes = cs.writes + 1) :=
  ⟨fun st rideId status rideName now =>
     ⟨saveStatus_flag_iff st rideId status rideName now,
      saveStatus_false_store st rideId status rideName now⟩,
   fun w now cs a p hl hs => processAttraction_unchanged w now cs a p hl hs,
   fun w now cs a hm => processAttraction_v0_writes w now cs a hm⟩

/-- Witness for C1 as amended: a cached `OPERATING` ride observed as
`OPERATING` again yields no event, no store change and no write. -/
theorem c1_change_gating_witness :
    ((⟨[("r1", ⟨"OPERATING", "Rocket", 0⟩)], [("r1", ⟨"OPERATING", "Rocket", 0⟩)],
        0, 0, 0, 0, []⟩ : CycleState).cache.lookup "r1"
      = some ⟨"OPERATING", "Rocket", 0⟩)
    ∧ (processAttraction [] 5
        ⟨[("r1", ⟨"OPERATING", "Rocket", 0⟩)], [("r1", ⟨"OPERATING", "Rocket", 0⟩)],
          0, 0, 0, 0, []⟩
        ⟨"r1", "Rocket", "ATTRACTION", some "OPERATING"⟩).statusChanges
      = (⟨[("r1", ⟨"OPERATING", "Rocket", 0⟩)], [("r1", ⟨"OPERATING", "Rocket", 0⟩)],
          0, 0, 0, 0, []⟩ : CycleState).statusChanges
    ∧ (processAttraction [] 5
        ⟨[("r1", ⟨"OPERATING", "Rocket", 0⟩)], [("r1", ⟨"OPERATING", "Rocket", 0⟩)],
          0, 0, 0, 0, []⟩
        ⟨"r1", "Rocket", "ATTRACTION", some "OPERATING"⟩).store
      = (⟨[("r1", ⟨"OPERATING", "Rocket", 0⟩)], [("r1", ⟨"OPERATING", "Rocket", 0⟩)],
          0, 0, 0, 0, []⟩ : CycleState).store
    ∧ (processAttraction [] 5
        ⟨[("r1", ⟨"OPERATING", "Rocket", 0⟩)], [("r1", ⟨"OPERATING", "Rocket", 0⟩)],
          0, 0, 0, 0, []⟩
        ⟨"r1", "Rocket", "ATTRACTION", some "OPERATING"⟩).writes
      = (⟨[("r1", ⟨"OPERATING", "Rocket", 0⟩)], [("r1", ⟨"OPERATING", "Rocket", 0⟩)],
          0, 0, 0, 0, []⟩ : CycleState).writes :=
  ⟨by decide,
   c1_change_gating.2.1 [] 5
     ⟨[("r1", ⟨"OPERATING", "Rocket", 0⟩)], [("r1", ⟨"OPERATING", "Rocket", 0⟩)],
       0, 0, 0, 0, []⟩
     ⟨"r1", "Rocket", "ATTRACTION", some "OPERATING"⟩
     ⟨"OPERATING", "Rocket", 0⟩ (by decide) (by decide)⟩

/-- Claim C10 (confirmed): change detection tests truthiness of the previous
status, so a prior record whose status field is the empty string never
produces a StatusChangeEvent, even when the current status differs. -/
theorem c10_untruthy_previous (w : List String) (now : Nat) (cs : CycleState)
    (a : Attraction) (p : StatusData) (hl : cs.cache.lookup a.id = some p)
    (hp : p.status = "") :
    (processAttraction w now cs a).statusChanges = cs.statusChanges := by
  by_cases hm : shouldMonitorRide w a.name
  · by_cases hd : isDownStatus (jsStatus a.status) <;>
      simp [processAttraction, hm, hd, hl, hp, jsTruthyNe, saveStatus]
  · simp [processAttraction, hm]

/-- Witness for C10: a cached empty-string status with a differing current
status (`OPERATING`) still emits no event. -/
theorem c10_untruthy_previous_witness :
    ((⟨[("r1", ⟨"", "Rocket", 0⟩)], [], 0, 0, 0, 0, []⟩ : CycleState).cache.lookup "r1"
      = some ⟨"", "Rocket", 0⟩)
    ∧ jsStatus (some "OPERATING") ≠ ""
    ∧ (processAttraction [] 5 ⟨[("r1", ⟨"", "Rocket", 0⟩)], [], 0, 0, 0, 0, []⟩
        ⟨"r1", "Rocket", "ATTRACTION", some "OPERATING"⟩).statusChanges
      = (⟨[("r1", ⟨"", "Rocket", 0⟩)], [], 0, 0, 0, 0, []⟩ : CycleState).statusChanges :=
  ⟨by decide, by decide,
   c10_untruthy_previous [] 5 ⟨[("r1", ⟨"", "Rocket", 0⟩)], [], 0, 0, 0, 0, []⟩
     ⟨"r1", "Rocket", "ATTRACTION", some "OPERATING"⟩ ⟨"", "Rocket", 0⟩
     (by decide) (by decide)⟩

/-- Claim C3 (corrected): the claimed "returned counters are the aggregate
over all dispatched notifications" fails: with two change events the loop
overwrites `notificationResults`, so the caller sees the last dispatch's
counters (1 sent, 0 failed) instead of the aggregate (1 sent, 1 failed). -/
theorem c3_counterexample :
    (dispatchNotifications true
        (fun i _ => if i = 0 then .failure "internal" else .success) 100000
        [⟨"r1", "R", "DOWN", "OPERATING"⟩, ⟨"r2", "S", "OPERATING", "DOWN"⟩]
        ⟨[("t", ⟨"ios", true, false⟩)], ⟨[], 0⟩⟩).2 = some ⟨1, 0⟩
    ∧ (dispatchNotificationsAgg true
        (fun i _ => if i = 0 then .failure "internal" else .success) 100000
        [⟨"r1", "R", "DOWN", "OPERATING"⟩, ⟨"r2", "S", "OPERATING", "DOWN"⟩]
        ⟨[("t", ⟨"ios", true, false⟩)], ⟨[], 0⟩⟩).2 = some ⟨1, 1⟩
    ∧ ¬((dispatchNotifications true
        (fun i _ => if i = 0 then .failure "internal" else .success) 100000
        [⟨"r1", "R", "DOWN", "OPERATING"⟩, ⟨"r2", "S", "OPERATING", "DOWN"⟩]
        ⟨[("t", ⟨"ios", true, false⟩)], ⟨[], 0⟩⟩).2
      = (dispatchNotificationsAgg true
        (fun i _ => if i = 0 then .failure "internal" else .success) 100000
        [⟨"r1", "R", "DOWN", "OPERATING"⟩, ⟨"r2", "S", "OPERATING", "DOWN"⟩]
        ⟨[("t", ⟨"ios", true, false⟩)], ⟨[], 0⟩⟩).2) := by decide

/-- Claim C3 as amended: for a non-empty batch the returned notification
result is the counters of the LAST dispatched notification — the result of
the final per-event send when 1-3 events are dispatched individually, and
the single summary send's counters when 4 or more events are batched — so
it covers all dispatches only when exactly one notification goes out. -/
theorem c3_last_result (firebaseInit : Bool)
    (outcome : Nat → String → SendOutcome) (now : Nat)
    (changes : List ChangeEvent) (st : PushState) (hne : changes ≠ []) :
    (changes.length ≤ 3 →
      (dispatchNotifications firebaseInit outcome now changes st).2
        = lastResult (dispatchResults firebaseInit outcome now changes st 0) none)
    ∧ (3 < changes.length →
      (dispatchNotifications firebaseInit outcome now changes st).2
        = some (sendPushNotification firebaseInit (outcome 0) st now).2) := by
  have hlen : ¬(changes.length = 0) := by simpa using hne
  constructor
  · intro h3
    unfold dispatchNotifications
    rw [if_neg hlen, if_pos h3, dispatchLoop_eq_lastResult]
  · intro h3
    unfold dispatchNotifications
    rw [if_neg hlen, if_neg (by omega)]

/-- Witness for C3 as amended, at the counterexample's input: the returned
result is exactly the last per-dispatch result. -/
theorem c3_last_result_witness :
    ([⟨"r1", "R", "DOWN", "OPERATING"⟩, ⟨"r2", "S", "OPERATING", "DOWN"⟩]
        ≠ ([] : List ChangeEvent))
    ∧ (dispatchNotifications true
        (fun i _ => if i = 0 then .failure "internal" else .success) 100000
        [⟨"r1", "R", "DOWN", "OPERATING"⟩, ⟨"r2", "S", "OPERATING", "DOWN"⟩]
        ⟨[("t", ⟨"ios", true, false⟩)], ⟨[], 0⟩⟩).2
      = lastResult (dispatchResults true
          (fun i _ => if i = 0 then .failure "internal" else .success) 100000
          [⟨"r1", "R", "DOWN", "OPERATING"⟩, ⟨"r2", "S", "OPERATING", "DOWN"⟩]
          ⟨[("t", ⟨"ios", true, false⟩)], ⟨[], 0⟩⟩ 0) none :=
  ⟨by decide,
   (c3_last_result true (fun i _ => if i = 0 then .failure "internal" else .success)
      100000 [⟨"r1", "R", "DOWN", "OPERATING"⟩, ⟨"r2", "S", "OPERATING", "DOWN"⟩]
      ⟨[("t", ⟨"ios", true, false⟩)], ⟨[], 0⟩⟩ (by decide)).1 (by decide)⟩

/-- Claim C8 (confirmed): a push failure with one of the two permanent
invalid-token error codes deactivates exactly that target (active=false,
invalid=true written through) and invalidates the device cache, while a run
whose failures all carry other codes leaves every target's stored state
untouched. -/
theorem c8_invalid_token_deactivation (outcome : String → SendOutcome)
    (st : PushState) (now : Nat) :
    (∀ (t : String) (doc : DeviceDoc),
      (t, doc) ∈ (getDeviceTokens st.store st.cache now).tokens →
      isInvalidTokenError (outcome t) = true →
      (∀ q ∈ (sendPushNotification true outcome st now).1.store,
        q.1 = t → q.2.active = false ∧ q.2.invalid = true)
      ∧ (sendPushNotification true outcome st now).1.cache.loadedAt = 0)
    ∧ ((∀ d ∈ (getDeviceTokens st.store st.cache now).tokens,
        isInvalidTokenError (outcome d.1) = false) →
      (sendPushNotification true outcome st now).1.store = st.store) := by
  have hpush : sendPushNotification true outcome st now
      = if (getDeviceTokens st.store st.cache now).tokens.length = 0
        then (⟨st.store, (getDeviceTokens st.store st.cache now).cache⟩, ⟨0, 0⟩)
        else sendLoop outcome (getDeviceTokens st.store st.cache now).tokens
               ⟨st.store, (getDeviceTokens st.store st.cache now).cache⟩ 0 0 := by
    simp [sendPushNotification]
  by_cases hlen : (getDeviceTokens st.store st.cache now).tokens.length = 0
  · constructor
    · intro t doc hmem _
      rw [List.length_eq_zero.mp hlen] at hmem
      exact absurd hmem (List.not_mem_nil _)
    · intro _
      rw [hpush, if_pos hlen]
  · constructor
    · intro t doc hmem hinv
      constructor
      · intro q hq hqt
        rw [hpush, if_neg hlen, sendLoop_store] at hq
        obtain ⟨p, hp, hfp⟩ := List.mem_map.mp hq
        by_cases hcond : (∃ d ∈ (getDeviceTokens st.store st.cache now).tokens, d.1 = p.1)
            ∧ isInvalidTokenError (outcome p.1) = true
        · rw [if_pos hcond] at hfp
          rw [← hfp]
          exact ⟨rfl, rfl⟩
        · rw [if_neg hcond] at hfp
          rw [← hfp] at hqt
          exact absurd ⟨⟨(t, doc), hmem, by rw [hqt]⟩, by rw [hqt]; exact hinv⟩ hcond
      · rw [hpush, if_neg hlen, sendLoop_cache]
        rw [if_pos ⟨(t, doc), hmem, hinv⟩]
    · intro hnone
      rw [hpush, if_neg hlen, sendLoop_store]
      have hid : (fun p : String × DeviceDoc =>
          if (∃ d ∈ (getDeviceTokens st.store st.cache now).tokens, d.1 = p.1)
            ∧ isInvalidTokenError (outcome p.1) = true
          then (p.1, deactivate p.2) else p) = fun p => p := by
        funext p
        refine if_neg ?_
        rintro ⟨⟨d, hd, hd1⟩, hpinv⟩
        rw [← hd1] at hpinv
        rw [hnone d hd] at hpinv
        exact Bool.false_ne_true hpinv
      rw [hid, List.map_id']

/-- Witness for C8: a single device failing with
`messaging/registration-token-not-registered` ends up deactivated and the
cache invalidated. -/
theorem c8_invalid_token_deactivation_witness :
    (("bad", (⟨"ios", true, false⟩ : DeviceDoc)) ∈
        (getDeviceTokens [("bad", ⟨"ios", true, false⟩)] ⟨[], 0⟩ 100000).tokens
      ∧ isInvalidTokenError
          (SendOutcome.failure "messaging/registration-token-not-registered") = true)
    ∧ (∀ q ∈ (sendPushNotification true
          (fun _ => SendOutcome.failure "messaging/registration-token-not-registered")
          ⟨[("bad", ⟨"ios", true, false⟩)], ⟨[], 0⟩⟩ 100000).1.store,
        q.1 = "bad" → q.2.active = false ∧ q.2.invalid = true)
    ∧ (sendPushNotification true
        (fun _ => SendOutcome.failure "messaging/registration-token-not-registered")
        ⟨[("bad", ⟨"ios", true, false⟩)], ⟨[], 0⟩⟩ 100000).1.cache.loadedAt = 0 :=
  ⟨⟨by decide, by decide⟩,
   ((c8_invalid_token_deactivation
       (fun _ => SendOutcome.failure "messaging/registration-token-not-registered")
       ⟨[("bad", ⟨"ios", true, false⟩)], ⟨[], 0⟩⟩ 100000).1 "bad" ⟨"ios", true, false⟩
       (by decide) (by decide)).1,
   ((c8_invalid_token_deactivation
       (fun _ => SendOutcome.failure "messaging/registration-token-not-registered")
       ⟨[("bad", ⟨"ios", true, false⟩)], ⟨[], 0⟩⟩ 100000).1 "bad" ⟨"ios", true, false⟩
       (by decide) (by decide)).2⟩

/-- Claim C5 (corrected): the claimed "undefined/absent fields never
overwrite an existing stored field" fails for `platform`: registering with
no platform value rewrites a stored platform ("android") to the default
"ios", because the write payload always carries a platform field. -/
theorem c5_counterexample :
    objGet [("platform", JVal.str "android")] "platform" = JVal.str "android"
    ∧ objGet (registeredDoc [("tok", [("platform", JVal.str "android")])] "tok"
        JVal.undef JVal.undef "t1") "platform" = JVal.str "ios"
    ∧ ¬(objGet (registeredDoc [("tok", [("platform", JVal.str "android")])] "tok"
        JVal.undef JVal.undef "t1") "platform"
      = objGet [("platform", JVal.str "android")] "platform") := by decide

/-- Claim C5 as amended: registration is an upsert keyed by token with
field-merge semantics, where defined metadata fields overlay old values and
undefined metadata fields are filtered out of the payload; but the fixed
fields active, registeredAt, lastUpdated and platform are always written —
platform defaulting to "ios" when not provided — so only fields OUTSIDE
that fixed set are protected from being overwritten by an absent/undefined
value. -/
theorem c5_register_merge (devices : List (String × List (String × JVal)))
    (token : String) (p d : JVal) (now : String) (k : String) :
    (p ≠ JVal.undef → objGet (registeredDoc devices token p d now) "platform" = p)
    ∧ (p = JVal.undef →
        objGet (registeredDoc devices token p d now) "platform" = JVal.str "ios")
    ∧ (d ≠ JVal.undef → objGet (registeredDoc devices token p d now) "deviceName" = d)
    ∧ (d = JVal.undef →
        objGet (registeredDoc devices token p d now) "deviceName"
          = objGet ((devices.lookup token).getD []) "deviceName")
    ∧ (k ≠ "active" → k ≠ "registeredAt" → k ≠ "lastUpdated" → k ≠ "platform" →
        k ≠ "deviceName" →
        objGet (registeredDoc devices token p d now) k
          = objGet ((devices.lookup token).getD []) k)
    ∧ objGet (registeredDoc devices token p d now) "active" = JVal.boolean true := by
  by_cases hp : p = JVal.undef
  · by_cases hd : d = JVal.undef
    · subst hp
      subst hd
      have hclean : cleanFields [("platform", JVal.undef), ("deviceName", JVal.undef)]
          = [] := by
        simp [cleanFields]
      have hpay : registerWritePayload
            [("platform", JVal.undef), ("deviceName", JVal.undef)] now
          = [("active", JVal.boolean true), ("registeredAt", JVal.str now),
             ("lastUpdated", JVal.str now), ("platform", JVal.str "ios")] := by
        rw [registerWritePayload, hclean]
        rfl
      have hnd := nodup_keys_quad (JVal.boolean true) (JVal.str now) (JVal.str now)
        (JVal.str "ios")
      have l_other : ∀ k2 : String, k2 ≠ "active" → k2 ≠ "registeredAt" →
          k2 ≠ "lastUpdated" → k2 ≠ "platform" →
          List.lookup k2 [("active", JVal.boolean true), ("registeredAt", JVal.str now),
            ("lastUpdated", JVal.str now), ("platform", JVal.str "ios")] = none := by
        intro k2 h1 h2 h3 h4
        apply lookup_eq_none_of_keys_ne
        intro q hq
        simp only [List.mem_cons, List.not_mem_nil, or_false] at hq
        rcases hq with rfl | rfl | rfl | rfl
        · exact fun he => h1 he.symm
        · exact fun he => h2 he.symm
        · exact fun he => h3 he.symm
        · exact fun he => h4 he.symm
      refine ⟨fun hpc => absurd rfl hpc, fun _ => ?_, fun hdc => absurd rfl hdc,
        fun _ => ?_, fun h1 h2 h3 h4 h5 => ?_, ?_⟩
      · rw [registeredDoc_eq, hpay, objGet_mergeSet _ _ _ hnd]
        rfl
      · rw [registeredDoc_eq, hpay, objGet_mergeSet _ _ _ hnd,
          l_other "deviceName" (by decide) (by decide) (by decide) (by decide)]
      · rw [registeredDoc_eq, hpay, objGet_mergeSet _ _ _ hnd, l_other k h1 h2 h3 h4]
      · rw [registeredDoc_eq, hpay, objGet_mergeSet _ _ _ hnd]
        rfl
    · subst hp
      have hdb : (d != JVal.undef) = true := bne_iff_ne.mpr hd
      have hclean : cleanFields [("platform", JVal.undef), ("deviceName", d)]
          = [("deviceName", d)] := by
        simp [cleanFields, hdb]
      have hpay : registerWritePayload [("platform", JVal.undef), ("deviceName", d)] now
          = setDoc [("active", JVal.boolean true), ("registeredAt", JVal.str now),
              ("lastUpdated", JVal.str now), ("platform", JVal.str "ios")]
              "deviceName" d := by
        rw [registerWritePayload, hclean]
        rfl
      have hnd : ((setDoc [("active", JVal.boolean true), ("registeredAt", JVal.str now),
            ("lastUpdated", JVal.str now), ("platform", JVal.str "ios")]
            "deviceName" d).map Prod.fst).Nodup :=
        nodup_keys_setDoc _ _ _ (nodup_keys_quad _ _ _ _)
      have l_plat : (setDoc [("active", JVal.boolean true), ("registeredAt", JVal.str now),
            ("lastUpdated", JVal.str now), ("platform", JVal.str "ios")]
            "deviceName" d).lookup "platform" = some (JVal.str "ios") := by
        rw [lookup_setDoc_ne _ _ _ _ (by decide)]
        rfl
      have l_dev : (setDoc [("active", JVal.boolean true), ("registeredAt", JVal.str now),
            ("lastUpdated", JVal.str now), ("platform", JVal.str "ios")]
            "deviceName" d).lookup "deviceName" = some d := lookup_setDoc_self _ _ _
      have l_act : (setDoc [("active", JVal.boolean true), ("registeredAt", JVal.str now),
            ("lastUpdated", JVal.str now), ("platform", JVal.str "ios")]
            "deviceName" d).lookup "active" = some (JVal.boolean true) := by
        rw [lookup_setDoc_ne _ _ _ _ (by decide)]
        rfl
      have l_other : ∀ k2 : String, k2 ≠ "active" → k2 ≠ "registeredAt" →
          k2 ≠ "lastUpdated" → k2 ≠ "platform" → k2 ≠ "deviceName" →
          (setDoc [("active", JVal.boolean true), ("registeredAt", JVal.str now),
            ("lastUpdated", JVal.str now), ("platform", JVal.str "ios")]
            "deviceName" d).lookup k2 = none := by
        intro k2 h1 h2 h3 h4 h5
        rw [lookup_setDoc_ne _ _ _ _ h5]
        apply lookup_eq_none_of_keys_ne
        intro q hq
        simp only [List.mem_cons, List.not_mem_nil, or_false] at hq
        rcases hq with rfl | rfl | rfl | rfl
        · exact fun he => h1 he.symm
        · exact fun he => h2 he.symm
        · exact fun he => h3 he.symm
        · exact fun he => h4 he.symm
      refine ⟨fun hpc => absurd rfl hpc, fun _ => ?_, fun _ => ?_,
        fun hdc => absurd hdc hd, fun h1 h2 h3 h4 h5 => ?_, ?_⟩
      · rw [registeredDoc_eq, hpay, objGet_mergeSet _ _ _ hnd, l_plat]
      · rw [registeredDoc_eq, hpay, objGet_mergeSet _ _ _ hnd, l_dev]
      · rw [registeredDoc_eq, hpay, objGet_mergeSet _ _ _ hnd, l_other k h1 h2 h3 h4 h5]
      · rw [registeredDoc_eq, hpay, objGet_mergeSet _ _ _ hnd, l_act]
  · by_cases hd : d = JVal.undef
    · subst hd
      have hpb : (p != JVal.undef) = true := bne_iff_ne.mpr hp
      have hclean : cleanFields [("platform", p), ("deviceName", JVal.undef)]
          = [("platform", p)] := by
        simp [cleanFields, hpb]
      have hpay : registerWritePayload [("platform", p), ("deviceName", JVal.undef)] now
          = setDoc [("active", JVal.boolean true), ("registeredAt", JVal.str now),
              ("lastUpdated", JVal.str now), ("platform", jsOr p (JVal.str "ios"))]
              "platform" p := by
        rw [registerWritePayload, hclean]
        rfl
      have hnd : ((setDoc [("active", JVal.boolean true), ("registeredAt", JVal.str now),
            ("lastUpdated", JVal.str now), ("platform", jsOr p (JVal.str "ios"))]
            "platform" p).map Prod.fst).Nodup :=
        nodup_keys_setDoc _ _ _ (nodup_keys_quad _ _ _ _)
      have l_plat : (setDoc [("active", JVal.boolean true), ("registeredAt", JVal.str now),
            ("lastUpdated", JVal.str now), ("platform", jsOr p (JVal.str "ios"))]
            "platform" p).lookup "platform" = some p := lookup_setDoc_self _ _ _
      have l_dev : (setDoc [("active", JVal.boolean true), ("registeredAt", JVal.str now),
            ("lastUpdated", JVal.str now), ("platform", jsOr p (JVal.str "ios"))]
            "platform" p).lookup "deviceName" = none := by
        rw [lookup_setDoc_ne _ _ _ _ (by decide)]
        rfl
      have l_act : (setDoc [("active", JVal.boolean true), ("registeredAt", JVal.str now),
            ("lastUpdated", JVal.str now), ("platform", jsOr p (JVal.str "ios"))]
            "platform" p).lookup "active" = some (JVal.boolean true) := by
        rw [lookup_setDoc_ne _ _ _ _ (by decide)]
        rfl
      have l_other : ∀ k2 : String, k2 ≠ "active" → k2 ≠ "registeredAt" →
          k2 ≠ "lastUpdated" → k2 ≠ "platform" →
          (setDoc [("active", JVal.boolean true), ("registeredAt", JVal.str now),
            ("lastUpdated", JVal.str now), ("platform", jsOr p (JVal.str "ios"))]
            "platform" p).lookup k2 = none := by
        intro k2 h1 h2 h3 h4
        rw [lookup_setDoc_ne _ _ _ _ h4]
        apply lookup_eq_none_of_keys_ne
        intro q hq
        simp only [List.mem_cons, List.not_mem_nil, or_false] at hq
        rcases hq with rfl | rfl | rfl | rfl
        · exact fun he => h1 he.symm
        · exact fun he => h2 he.symm
        · exact fun he => h3 he.symm
        · exact fun he => h4 he.symm
      refine ⟨fun _ => ?_, fun hpc => absurd hpc hp, fun hdc => absurd rfl hdc,
        fun _ => ?_, fun h1 h2 h3 h4 h5 => ?_, ?_⟩
      · rw [registeredDoc_eq, hpay, objGet_mergeSet _ _ _ hnd, l_plat]
      · rw [registeredDoc_eq, hpay, objGet_mergeSet _ _ _ hnd, l_dev]
      · rw [registeredDoc_eq, hpay, objGet_mergeSet _ _ _ hnd, l_other k h1 h2 h3 h4]
      · rw [registeredDoc_eq, hpay, objGet_mergeSet _ _ _ hnd, l_act]
    · have hpb : (p != JVal.undef) = true := bne_iff_ne.mpr hp
      have hdb : (d != JVal.undef) = true := bne_iff_ne.mpr hd
      have hclean : cleanFields [("platform", p), ("deviceName", d)]
          = [("platform", p), ("deviceName", d)] := by
        simp [cleanFields, hpb, hdb]
      have hpay : registerWritePayload [("platform", p), ("deviceName", d)] now
          = setDoc (setDoc [("active", JVal.boolean true), ("registeredAt", JVal.str now),
              ("lastUpdated", JVal.str now), ("platform", jsOr p (JVal.str "ios"))]
              "platform" p) "deviceName" d := by
        rw [registerWritePayload, hclean]
        rfl
      have hnd : ((setDoc (setDoc [("active", JVal.boolean true),
            ("registeredAt", JVal.str now), ("lastUpdated", JVal.str now),
            ("platform", jsOr p (JVal.str "ios"))] "platform" p)
            "deviceName" d).map Prod.fst).Nodup :=
        nodup_keys_setDoc _ _ _ (nodup_keys_setDoc _ _ _ (nodup_keys_quad _ _ _ _))
      have l_plat : (setDoc (setDoc [("active", JVal.boolean true),
            ("registeredAt", JVal.str now), ("lastUpdated", JVal.str now),
            ("platform", jsOr p (JVal.str "ios"))] "platform" p)
            "deviceName" d).lookup "platform" = some p := by
        rw [lookup_setDoc_ne _ _ _ _ (by decide), lookup_setDoc_self]
      have l_dev : (setDoc (setDoc [("active", JVal.boolean true),
            ("registeredAt", JVal.str now), ("lastUpdated", JVal.str now),
            ("platform", jsOr p (JVal.str "ios"))] "platform" p)
            "deviceName" d).lookup "deviceName" = some d := lookup_setDoc_self _ _ _
      have l_act : (setDoc (setDoc [("active", JVal.boolean true),
            ("registeredAt", JVal.str now), ("lastUpdated", JVal.str now),
            ("platform", jsOr p (JVal.str "ios"))] "platform" p)
            "deviceName" d).lookup "active" = some (JVal.boolean true) := by
        rw [lookup_setDoc_ne _ _ _ _ (by decide), lookup_setDoc_ne _ _ _ _ (by decide)]
        rfl
      have l_other : ∀ k2 : String, k2 ≠ "active" → k2 ≠ "registeredAt" →
          k2 ≠ "lastUpdated" → k2 ≠ "platform" → k2 ≠ "deviceName" →
          (setDoc (setDoc [("active", JVal.boolean true),
            ("registeredAt", JVal.str now), ("lastUpdated", JVal.str now),
            ("platform", jsOr p (JVal.str "ios"))] "platform" p)
            "deviceName" d).lookup k2 = none := by
        intro k2 h1 h2 h3 h4 h5
        rw [lookup_setDoc_ne _ _ _ _ h5, lookup_setDoc_ne _ _ _ _ h4]
        apply lookup_eq_none_of_keys_ne
        intro q hq
        simp only [List.mem_cons, List.not_mem_nil, or_false] at hq
        rcases hq with rfl | rfl | rfl | rfl
        · exact fun he => h1 he.symm
        · exact fun he => h2 he.symm
        · exact fun he => h3 he.symm
        · exact fun he => h4 he.symm
      refine ⟨fun _ => ?_, fun hpc => absurd hpc hp, fun _ => ?_,
        fun hdc => absurd hdc hd, fun h1 h2 h3 h4 h5 => ?_, ?_⟩
      · rw [registeredDoc_eq, hpay, objGet_mergeSet _ _ _ hnd, l_plat]
      · rw [registeredDoc_eq, hpay, objGet_mergeSet _ _ _ hnd, l_dev]
      · rw [registeredDoc_eq, hpay, objGet_mergeSet _ _ _ hnd, l_other k h1 h2 h3 h4 h5]
      · rw [registeredDoc_eq, hpay, objGet_mergeSet _ _ _ hnd, l_act]

/-- Witness for C5 as amended: a defined platform overlays, an undefined
deviceName and an unrelated stored field ("favorite") are preserved, and
`active` is set. -/
theorem c5_register_merge_witness :
    objGet (registeredDoc [("tok", [("platform", JVal.str "android"),
        ("favorite", JVal.str "x")])] "tok" (JVal.str "a2") JVal.undef "t2")
      "platform" = JVal.str "a2"
    ∧ objGet (registeredDoc [("tok", [("platform", JVal.str "android"),
        ("favorite", JVal.str "x")])] "tok" (JVal.str "a2") JVal.undef "t2")
      "deviceName"
      = objGet (([("tok", [("platform", JVal.str "android"),
          ("favorite", JVal.str "x")])].lookup "tok").getD []) "deviceName"
    ∧ objGet (registeredDoc [("tok", [("platform", JVal.str "android"),
        ("favorite", JVal.str "x")])] "tok" (JVal.str "a2") JVal.undef "t2")
      "favorite"
      = objGet (([("tok", [("platform", JVal.str "android"),
          ("favorite", JVal.str "x")])].lookup "tok").getD []) "favorite"
    ∧ objGet (registeredDoc [("tok", [("platform", JVal.str "android"),
        ("favorite", JVal.str "x")])] "tok" (JVal.str "a2") JVal.undef "t2")
      "active" = JVal.boolean true :=
  ⟨(c5_register_merge [("tok", [("platform", JVal.str "android"),
      ("favorite", JVal.str "x")])] "tok" (JVal.str "a2") JVal.undef "t2"
      "favorite").1 (by decide),
   (c5_register_merge [("tok", [("platform", JVal.str "android"),
      ("favorite", JVal.str "x")])] "tok" (JVal.str "a2") JVal.undef "t2"
      "favorite").2.2.2.1 (by decide),
   (c5_register_merge [("tok", [("platform", JVal.str "android"),
      ("favorite", JVal.str "x")])] "tok" (JVal.str "a2") JVal.undef "t2"
      "favorite").2.2.2.2.1 (by decide) (by decide) (by decide) (by decide)
      (by decide),
   (c5_register_merge [("tok", [("platform", JVal.str "android"),
      ("favorite", JVal.str "x")])] "tok" (JVal.str "a2") JVal.undef "t2"
      "favorite").2.2.2.2.2⟩

end RideWatch
